import Mathlib

/-
Verification development for the Entrata → Webflow CMS sync worker
(repository blackpixelca/entrata-webflow-sync).

The repository contains one pipeline in three revisions:
  * src/src/index.ts          — the main revision (getUnitTypes fetcher,
                                threshold-only tier logic, no timestamp field);
  * src/unnamed/part_001      — two earlier revisions: a floorplan revision
                                (fetchEntrataFloorplans / a transform that adds a
                                last-synced timestamp) and a getUnitTypes revision
                                with the probe/scan extraction policy.

This file shallowly embeds the pure parts of those functions:
  * JSON values are modelled by the inductive `Json` with rational numbers
    standing in for JS numbers (all inputs considered by the claims are exactly
    representable, so no floating-point rounding is involved);
  * JS truthiness, `||` defaulting, optional chaining (`?.`), `String.includes`,
    `toLowerCase`, the kebab regex replace and `Math.round` are modelled by the
    `js...` helpers below, each annotated with the construct it embeds;
  * network effects are modelled by explicit parameters: the publisher takes the
    HTTP responses as an oracle `ℕ → HttpResp`, the fetcher's extraction logic is
    embedded as a pure function of the parsed response body, and the wall clock
    of `new Date().toISOString()` is a string parameter.
-/

namespace EntrataWebflowSync

/-- JSON values as delivered by `response.json()` / `JSON.parse`.
JS numbers are modelled as rationals; object fields keep insertion order
(`Object.keys` order), and keys are assumed unique as `JSON.parse` guarantees. -/
inductive Json where
  | null
  | bool (b : Bool)
  | num (q : ℚ)
  | str (s : String)
  | arr (elems : List Json)
  | obj (fields : List (String × Json))

/-- JS truthiness of a value: `false`, `0`, `""`, `null`/`undefined` are falsy;
every object (including the empty object and empty array) is truthy. -/
def jsTruthy : Json → Bool
  | Json.null => false
  | Json.bool b => b
  | Json.num q => !(decide (q = 0))
  | Json.str s => !(decide (s = ""))
  | Json.arr _ => true
  | Json.obj _ => true

/-- Property access `v[k]` with optional-chaining semantics: `none` stands for
`undefined` (missing key, or access on a non-object). -/
def jsGet : Json → String → Option Json
  | Json.obj fields, k => fields.lookup k
  | _, _ => none

/-- A chain `j.k₁?.k₂?....?.kₙ` of property accesses. -/
def jsPath (j : Json) (ks : List String) : Option Json :=
  ks.foldl (fun acc k => acc.bind (fun v => jsGet v k)) (some j)

/-- `getField(obj, n₁, n₂, ...)` from src/src/index.ts: the first field value
that is not `undefined` wins (`Option` models presence). -/
def firstPresent {α : Type} : List (Option α) → Option α
  | [] => none
  | some v :: _ => some v
  | none :: rest => firstPresent rest

/-- `getField(...) || d` on a numeric field: an absent value or a falsy present
value (`0`) falls back to the default. -/
def jsOrNum (o : Option ℚ) (d : ℚ) : ℚ :=
  match o with
  | some v => if v = 0 then d else v
  | none => d

/-- `getField(...) || d` on a string field: absent or empty-string values fall
back to the default. -/
def jsOrStr (o : Option String) (d : String) : String :=
  match o with
  | some s => if s = "" then d else s
  | none => d

/-- `Math.round q` : JS rounds half toward positive infinity, which on every
real input equals `⌊q + 1/2⌋`. -/
def jsRound (q : ℚ) : ℤ :=
  ⌊q + 1 / 2⌋

/-- Rendering of a JS number inside a template literal.  Integral values render
exactly as in JS; no claim depends on the rendering of non-integral values. -/
def jsNumToString (q : ℚ) : String :=
  if q.den = 1 then toString q.num else toString q.num ++ "/" ++ toString q.den

/-- Whether the character list `needle` occurs contiguously starting at the head
of `hay` (helper for `String.includes`). -/
def leadsWith : List Char → List Char → Bool
  | [], _ => true
  | _ :: _, [] => false
  | a :: as, b :: bs => (a == b) && leadsWith as bs

/-- Whether `needle` occurs contiguously anywhere in `hay`. -/
def occursIn (needle : List Char) : List Char → Bool
  | [] => needle.isEmpty
  | c :: rest => leadsWith needle (c :: rest) || occursIn needle rest

/-- `hay.includes(needle)` from JS. -/
def jsIncludes (hay needle : String) : Bool :=
  occursIn needle.toList hay.toList

/-- `s.toLowerCase()`, implemented directly over the character list (the
core `String.map` is compiled code and does not reduce inside proofs). -/
def jsToLower (s : String) : String :=
  String.mk (s.toList.map Char.toLower)

/-- Collapse consecutive hyphens into one (second half of the kebab regex). -/
def collapseHyphens : List Char → List Char
  | [] => []
  | [c] => [c]
  | a :: b :: rest =>
      if a = '-' && b = '-' then collapseHyphens (b :: rest)
      else a :: collapseHyphens (b :: rest)

/-- `s.replace(/[^a-z0-9]+/g, '-')` : every maximal run of characters outside
`a-z0-9` becomes a single hyphen (the argument is already lower-cased at every
call site in the source). -/
def kebabReplace (s : String) : String :=
  String.mk (collapseHyphens (s.toList.map (fun c =>
    if ('a' ≤ c && c ≤ 'z') || ('0' ≤ c && c ≤ '9') then c else '-')))

/-- PropertyConfig from the source: one entry per managed property. -/
structure PropertyConfig where
  entrataPropertyId : String
  webflowSiteId : String
  webflowCollectionId : String
  name : Option String := none

/-- EntrataUnitType from src/src/index.ts, extended with the extra key variants
probed by `getField` in `transformToWebflowItems` (`Id`, `Rent`, `Available`,
`Total`, `Image`, ...).  Every field is optional; `none` models an absent key.
Values carry the types declared by the interface (strings / numbers). -/
structure EntrataUnitType where
  UnitTypeId : Option String := none
  unitTypeId : Option String := none
  Id : Option String := none
  id : Option String := none
  Name : Option String := none
  name : Option String := none
  UnitTypeName : Option String := none
  unitTypeName : Option String := none
  Bedrooms : Option ℚ := none
  bedrooms : Option ℚ := none
  Beds : Option ℚ := none
  beds : Option ℚ := none
  Bathrooms : Option ℚ := none
  bathrooms : Option ℚ := none
  Baths : Option ℚ := none
  baths : Option ℚ := none
  SquareFeet : Option ℚ := none
  squareFeet : Option ℚ := none
  SQFT : Option ℚ := none
  sqft : Option ℚ := none
  MinRent : Option ℚ := none
  minRent : Option ℚ := none
  Rent : Option ℚ := none
  rent : Option ℚ := none
  MinimumRent : Option ℚ := none
  MaxRent : Option ℚ := none
  maxRent : Option ℚ := none
  MaximumRent : Option ℚ := none
  AvailableUnits : Option ℚ := none
  availableUnits : Option ℚ := none
  Available : Option ℚ := none
  available : Option ℚ := none
  TotalUnits : Option ℚ := none
  totalUnits : Option ℚ := none
  Total : Option ℚ := none
  total : Option ℚ := none
  ImageUrl : Option String := none
  imageUrl : Option String := none
  Image : Option String := none
  image : Option String := none
  Description : Option String := none
  description : Option String := none

/-- `determineLayoutType` from src/src/index.ts (identical in part_001). -/
def determineLayoutType (name : String) : String :=
  if name = "" then "Standard"
  else
    let lowerName := jsToLower name
    if jsIncludes lowerName "corner" then "Corner"
    else if jsIncludes lowerName "townhouse" || jsIncludes lowerName "town house" then "Townhouse"
    else if jsIncludes lowerName "flat" then "Flat"
    else if jsIncludes lowerName "penthouse" then "Penthouse"
    else if jsIncludes lowerName "loft" then "Loft"
    else if jsIncludes lowerName "studio" then "Studio"
    else name

/- Field extraction of `transformToWebflowItems` (src/src/index.ts, lines
235-245): each local `const` of the source becomes one definition. -/

def unitTypeIdOf (u : EntrataUnitType) : String :=
  jsOrStr (firstPresent [u.UnitTypeId, u.unitTypeId, u.Id, u.id]) ""

def nameOf (u : EntrataUnitType) : String :=
  jsOrStr (firstPresent [u.Name, u.name, u.UnitTypeName, u.unitTypeName]) "Unknown"

/-- The raw `getField(unitType, 'Bedrooms', 'bedrooms', 'Beds', 'beds')`
before the `|| 0` default (needed to state "present"). -/
def bedroomsRawOf (u : EntrataUnitType) : Option ℚ :=
  firstPresent [u.Bedrooms, u.bedrooms, u.Beds, u.beds]

def bedroomsOf (u : EntrataUnitType) : ℚ :=
  jsOrNum (bedroomsRawOf u) 0

def bathroomsOf (u : EntrataUnitType) : ℚ :=
  jsOrNum (firstPresent [u.Bathrooms, u.bathrooms, u.Baths, u.baths]) 0

def sqftOf (u : EntrataUnitType) : ℚ :=
  jsOrNum (firstPresent [u.SquareFeet, u.squareFeet, u.SQFT, u.sqft]) 0

/-- The raw `getField(unitType, 'MinRent', 'minRent', 'Rent', 'rent',
'MinimumRent')` before the `|| 0` default (needed to state "present"). -/
def minRentRawOf (u : EntrataUnitType) : Option ℚ :=
  firstPresent [u.MinRent, u.minRent, u.Rent, u.rent, u.MinimumRent]

def minRentOf (u : EntrataUnitType) : ℚ :=
  jsOrNum (minRentRawOf u) 0

/-- `maxRent` is computed by the source but not emitted in this revision's
field map; kept for faithfulness. -/
def maxRentOf (u : EntrataUnitType) : ℚ :=
  jsOrNum (firstPresent [u.MaxRent, u.maxRent, u.MaximumRent]) (minRentOf u)

def availableUnitsOf (u : EntrataUnitType) : ℚ :=
  jsOrNum (firstPresent [u.AvailableUnits, u.availableUnits, u.Available, u.available]) 0

/-- `totalUnits` is likewise computed but unused in this revision's field map. -/
def totalUnitsOf (u : EntrataUnitType) : ℚ :=
  jsOrNum (firstPresent [u.TotalUnits, u.totalUnits, u.Total, u.total]) 0

def imageUrlOf (u : EntrataUnitType) : String :=
  jsOrStr (firstPresent [u.ImageUrl, u.imageUrl, u.Image, u.image]) ""

def descriptionRawOf (u : EntrataUnitType) : String :=
  jsOrStr (firstPresent [u.Description, u.description]) ""

def layoutTypeOf (u : EntrataUnitType) : String :=
  determineLayoutType (nameOf u)

/-- `layoutType.toLowerCase().replace(/[^a-z0-9]+/g, '-')`. -/
def cleanLayoutNameOf (u : EntrataUnitType) : String :=
  kebabReplace (jsToLower (layoutTypeOf u))

def slugOf (u : EntrataUnitType) : String :=
  jsNumToString (bedroomsOf u) ++ "bed-" ++ cleanLayoutNameOf u

/-- `minRent && bedrooms ? Math.round(minRent / bedrooms) : 0` — the guard is
JS truthiness of both numbers, i.e. both nonzero after defaulting. -/
def pricePerBedOf (u : EntrataUnitType) : ℚ :=
  if minRentOf u ≠ 0 ∧ bedroomsOf u ≠ 0
  then ((jsRound (minRentOf u / bedroomsOf u) : ℤ) : ℚ)
  else 0

def availabilityStatusOf (u : EntrataUnitType) : String :=
  if 0 < availableUnitsOf u then "available" else "sold-out"

/-- `const isElite = pricePerBed >= 900` (src/src/index.ts line 261). -/
def isEliteOf (u : EntrataUnitType) : Bool :=
  decide (900 ≤ pricePerBedOf u)

/-- `unitTypeId || config.entrataPropertyId-slug` template. -/
def floorplanIdOf (u : EntrataUnitType) (config : PropertyConfig) : String :=
  if unitTypeIdOf u = "" then config.entrataPropertyId ++ "-" ++ slugOf u
  else unitTypeIdOf u

def unitNameOf (u : EntrataUnitType) : String :=
  jsNumToString (bedroomsOf u) ++ " Bed " ++ layoutTypeOf u

/-- `description || default-template` — the already-defaulted description string
falls back again (if empty) to the generated sentence. -/
def descriptionFieldOf (u : EntrataUnitType) : String :=
  if descriptionRawOf u = "" then
    jsNumToString (bedroomsOf u) ++ " bedroom, " ++ jsNumToString (bathroomsOf u) ++
      " bathroom " ++ layoutTypeOf u ++ " layout with " ++ jsNumToString (sqftOf u) ++ " sq ft."
  else descriptionRawOf u

/-- A destination CMS item: a flat field map, in the insertion order of the
source's object literal. -/
structure WebflowItem where
  fieldData : List (String × Json)

/-- The `fieldData` object literal of `transformToWebflowItems`
(src/src/index.ts, lines 266-292), one entry per line of the source. -/
def mkWebflowFieldData (u : EntrataUnitType) (config : PropertyConfig) :
    List (String × Json) :=
  [ ("unit-name", Json.str (unitNameOf u)),
    ("slug", Json.str (slugOf u)),
    ("bedrooms", Json.num (bedroomsOf u)),
    ("bathrooms", Json.num (bathroomsOf u)),
    ("square-footage", Json.num (sqftOf u)),
    ("starting-price", Json.num (minRentOf u)),
    ("available-units", Json.num (availableUnitsOf u)),
    ("layout-type", Json.str (layoutTypeOf u)),
    ("description", Json.str (descriptionFieldOf u)),
    ("floor-plan-image", Json.str (imageUrlOf u)),
    ("floorplan-id", Json.str (floorplanIdOf u config)),
    ("availability-status", Json.str (availabilityStatusOf u)),
    ("tier-signature", Json.bool (!isEliteOf u)),
    ("tier-elite", Json.bool (isEliteOf u)),
    ("price-per-bed", Json.num (pricePerBedOf u)),
    ("property-id", Json.str config.entrataPropertyId),
    ("_archived", Json.bool false),
    ("_draft", Json.bool false) ]

/-- `transformToWebflowItems` from src/src/index.ts: pure map over the fetched
records. -/
def transformToWebflowItems (unitTypes : List EntrataUnitType)
    (config : PropertyConfig) : List WebflowItem :=
  unitTypes.map (fun u => ⟨mkWebflowFieldData u config⟩)

/-- Field lookup on a produced item (`item.fieldData[k]`). -/
def fieldOf (item : WebflowItem) (k : String) : Option Json :=
  item.fieldData.lookup k

/-- A concrete property configuration used for closed instances. -/
def sampleConfig : PropertyConfig :=
  { entrataPropertyId := "P123", webflowSiteId := "site1",
    webflowCollectionId := "coll1", name := some "Downtown Tower" }

/- ------------------------------------------------------------------
Part_001 first revision: `transformToWebflowItems` over EntrataFloorplan
(src/unnamed/part_001 lines 188-233).  This is the revision that emits the
`last-synced` timestamp.  The wall clock of `new Date().toISOString()` is
modelled by the `now` parameter.
------------------------------------------------------------------ -/

/-- EntrataFloorplan from part_001 (first revision): `floorplanId`,
`floorplanName`, `bedrooms`, `bathrooms`, `sqft` are required by the
interface; the rest are optional. -/
structure EntrataFloorplan where
  floorplanId : String := ""
  floorplanName : String := ""
  bedrooms : ℚ := 0
  bathrooms : ℚ := 0
  sqft : ℚ := 0
  minRent : Option ℚ := none
  maxRent : Option ℚ := none
  availableUnits : Option ℚ := none
  totalUnits : Option ℚ := none
  imageUrl : Option String := none
  layoutType : Option String := none
  tier : Option String := none

/-- `floorplanName || layoutType || 'standard'` — the first truthy string. -/
def floorplanSlugBase (fp : EntrataFloorplan) : String :=
  if fp.floorplanName ≠ "" then fp.floorplanName else jsOrStr fp.layoutType "standard"

/-- `floorplan.minRent && floorplan.bedrooms ? Math.round(minRent / bedrooms) : 0`
(part_001 line 209): truthiness of the raw optional `minRent` and of the
required `bedrooms`. -/
def floorplanPricePerBed (fp : EntrataFloorplan) : ℚ :=
  match fp.minRent with
  | some m => if m ≠ 0 ∧ fp.bedrooms ≠ 0 then ((jsRound (m / fp.bedrooms) : ℤ) : ℚ) else 0
  | none => 0

/-- The `fieldData` object literal of part_001's first-revision
`transformToWebflowItems` (lines 192-232), entry for entry.
`now` is the value of `new Date().toISOString()` at transform time.
Note `floorplanName || ''` equals `floorplanName` (both sides are `''` when
the name is empty), so that field is embedded directly. -/
def mkFloorplanFieldData (fp : EntrataFloorplan) (config : PropertyConfig)
    (now : String) : List (String × Json) :=
  [ ("name", Json.str (if fp.floorplanName ≠ "" then fp.floorplanName
        else jsNumToString fp.bedrooms ++ " Bedroom")),
    ("slug", Json.str (jsNumToString fp.bedrooms ++ "bed-" ++
        kebabReplace (jsToLower (floorplanSlugBase fp)))),
    ("floorplan-id", Json.str fp.floorplanId),
    ("floorplan-name", Json.str fp.floorplanName),
    ("layout-type", Json.str (jsOrStr fp.layoutType
        (if fp.floorplanName ≠ "" then fp.floorplanName else ""))),
    ("bedrooms", Json.num fp.bedrooms),
    ("bathrooms", Json.num fp.bathrooms),
    ("square-feet", Json.num fp.sqft),
    ("starting-price", Json.num (jsOrNum fp.minRent 0)),
    ("max-price", Json.num (jsOrNum fp.maxRent 0)),
    ("price-per-bed", Json.num (floorplanPricePerBed fp)),
    ("available-units", Json.num (jsOrNum fp.availableUnits 0)),
    ("total-units", Json.num (jsOrNum fp.totalUnits 0)),
    ("availability-status", Json.str
        (if 0 < jsOrNum fp.availableUnits 0 then "available" else "sold-out")),
    ("tier-signature", Json.bool true),
    ("tier-elite", Json.bool false),
    ("thumbnail-image", Json.str (jsOrStr fp.imageUrl "")),
    ("property-id", Json.str config.entrataPropertyId),
    ("last-synced", Json.str now) ]

/-- part_001 first-revision `transformToWebflowItems`. -/
def transformToWebflowItemsRev1 (floorplans : List EntrataFloorplan)
    (config : PropertyConfig) (now : String) : List WebflowItem :=
  floorplans.map (fun fp => ⟨mkFloorplanFieldData fp config now⟩)

/- ------------------------------------------------------------------
Source fetcher: response-shape extraction.
------------------------------------------------------------------ -/

/-- The probe loop of part_001's `fetchEntrataUnitTypes` (lines 475-480):
the first candidate that is defined, truthy and an array wins.  Arrays are
always truthy in JS, so the test reduces to `Array.isArray`. -/
def firstArrayPath : List (Option Json) → Option (List Json)
  | [] => none
  | some (Json.arr xs) :: _ => some xs
  | _ :: rest => firstArrayPath rest

/-- The fallback scan of part_001's `fetchEntrataUnitTypes` (lines 483-493):
the first own property of the result object whose value is a non-empty array. -/
def firstNonemptyArrayField : List (String × Json) → Option (List Json)
  | [] => none
  | (_, Json.arr (x :: xs)) :: _ => some (x :: xs)
  | _ :: rest => firstNonemptyArrayField rest

/-- Extraction logic of `fetchEntrataUnitTypes` from src/unnamed/part_001
(lines 461-515), applied to the parsed response body `data`:
probe the prioritized candidate paths for an array; failing that, scan the
`response.result` object's own properties for the first non-empty array;
failing that, the code would wrap a truthy non-array object in a singleton
array, but at that point `unitTypes` is necessarily `null` (both earlier
assignments only store arrays), so the function returns the empty array. -/
def fetchEntrataUnitTypesExtract (data : Json) : List Json :=
  let result? := jsPath data ["response", "result"]
  let possiblePaths : List (Option Json) :=
    [ jsPath data ["response", "result", "unitTypes", "unitType"],
      jsPath data ["response", "result", "UnitTypes"],
      jsPath data ["response", "result", "unitTypes"],
      jsPath data ["response", "result", "PropertyUnitTypes"],
      jsPath data ["response", "result", "PhysicalProperty", "Property", "UnitType"],
      jsPath data ["response", "result", "Property", "UnitType"],
      result? ]
  match firstArrayPath possiblePaths with
  | some xs => xs
  | none =>
      match result? with
      | some (Json.obj fields) =>
          match firstNonemptyArrayField fields with
          | some xs => xs
          | none => []
      | _ => []

/-- A `||` chain over possibly-undefined values with a final default, as used
by the src/src/index.ts fetcher: the first defined truthy value wins. -/
def firstTruthyValue : List (Option Json) → Json → Json
  | [], d => d
  | some v :: rest, d => if jsTruthy v then v else firstTruthyValue rest d
  | none :: rest, d => firstTruthyValue rest d

/-- Extraction logic of `fetchEntrataUnitTypes` from src/src/index.ts
(lines 178-184): a plain truthy-`||` chain ending in `[]`.  Unlike the
part_001 revision it requires no array: a truthy non-array `response.result`
(e.g. the empty object) is returned as-is. -/
def fetchEntrataUnitTypesExtractIndex (data : Json) : Json :=
  firstTruthyValue
    [ jsPath data ["response", "result", "UnitTypes"],
      jsPath data ["response", "result", "unitTypes"],
      jsPath data ["response", "result", "PropertyUnitTypes"],
      jsPath data ["response", "result", "PhysicalProperty", "Property", "UnitType"],
      jsPath data ["response", "result"] ]
    (Json.arr [])

/-- Helper to build `{response: {result: v}}` payloads. -/
def wrapResult (v : Json) : Json :=
  Json.obj [("response", Json.obj [("result", v)])]

/- ------------------------------------------------------------------
Batch publisher: `syncToWebflow` (src/src/index.ts lines 299-343; identical
loop in both part_001 revisions).
------------------------------------------------------------------ -/

/-- An HTTP response from the destination, reduced to what the code reads. -/
structure HttpResp where
  status : ℕ
  body : String

/-- `response.ok`: status in the inclusive range 200-299. -/
def respOk (r : HttpResp) : Bool :=
  decide (200 ≤ r.status) && decide (r.status ≤ 299)

/-- Observable publisher actions: one `post` per issued bulk request, one
`delay` per `setTimeout` pause. -/
inductive PubEvent (α : Type) where
  | post (batch : List α)
  | delay (ms : ℕ)

/-- Result of a publisher run: clean completion, or the thrown
`Webflow API failed: status - body` error. -/
inductive PubOutcome where
  | ok
  | destinationError (status : ℕ) (body : String)

/-- The `for (let i = 0; i < items.length; i += batchSize)` loop of
`syncToWebflow` with `batchSize = 100`, indexed by the remaining suffix
`items.slice(i)` and the number `k` of requests already issued; `resp` is the
oracle giving the destination's response to the (k+1)-th request.  Each
iteration posts `slice(i, i + 100)`; a non-ok response throws, carrying status
and body; otherwise, when items remain (`i + batchSize < items.length`), the
loop sleeps 1000 ms before continuing. -/
def syncRunAux {α : Type} (resp : ℕ → HttpResp) : ℕ → List α →
    List (PubEvent α) × PubOutcome
  | _, [] => ([], PubOutcome.ok)
  | k, x :: xs =>
      let l := x :: xs
      let batch := l.take 100
      let r := resp k
      if respOk r then
        let rest := syncRunAux resp (k + 1) (l.drop 100)
        if 100 < l.length then
          (PubEvent.post batch :: PubEvent.delay 1000 :: rest.1, rest.2)
        else
          (PubEvent.post batch :: rest.1, rest.2)
      else
        ([PubEvent.post batch], PubOutcome.destinationError r.status r.body)
termination_by _ l => l.length
decreasing_by simp [List.length_drop]; omega

/-- `syncToWebflow`: the empty-items early return is the same as running the
loop on an empty list. -/
def syncToWebflowRun {α : Type} (resp : ℕ → HttpResp) (items : List α) :
    List (PubEvent α) × PubOutcome :=
  syncRunAux resp 0 items

/-- The partition of a list into consecutive chunks of 100 (the source's
`items.slice(i, i + batchSize)` family). -/
def chunks100 {α : Type} : List α → List (List α)
  | [] => []
  | x :: xs => (x :: xs).take 100 :: chunks100 ((x :: xs).drop 100)
termination_by l => l.length
decreasing_by simp [List.length_drop]; omega

/-- The batches actually posted during a run, in order. -/
def postedBatches {α : Type} (evs : List (PubEvent α)) : List (List α) :=
  evs.filterMap (fun e => match e with
    | PubEvent.post b => some b
    | PubEvent.delay _ => none)

/-- The number of inter-batch pauses during a run. -/
def delayCount {α : Type} (evs : List (PubEvent α)) : ℕ :=
  evs.countP (fun e => match e with
    | PubEvent.delay _ => true
    | PubEvent.post _ => false)

/-- The rethrow chain `syncToWebflow → syncSingleProperty → syncAllProperties`:
properties are processed in order and the first error aborts the run and
surfaces unchanged (both intermediate `catch` blocks log and rethrow). -/
def syncAllOutcome : List PubOutcome → PubOutcome
  | [] => PubOutcome.ok
  | PubOutcome.ok :: rest => syncAllOutcome rest
  | PubOutcome.destinationError s b :: _ => PubOutcome.destinationError s b

/- ------------------------------------------------------------------
Property enumerator: the head of `syncAllProperties` (src/src/index.ts lines
92-99).  `JSON.parse(env.PROPERTIES)` either throws a SyntaxError (modelled by
the `none` argument) or yields a value that the `for...of` loop then iterates:
arrays iterate their elements, strings iterate their characters (as one-char
strings), and any other value throws a TypeError at the loop head.  There is
no array check in the code.
------------------------------------------------------------------ -/

/-- The way a run can die before any property is processed. -/
inductive ConfigFailure where
  | jsonSyntaxError
  | notIterable

/-- JS iterability of a parsed JSON value: arrays and strings are iterable,
objects, numbers, booleans and null are not. -/
def jsIterable : Json → Bool
  | Json.arr _ => true
  | Json.str _ => true
  | _ => false

/-- Parse-and-enumerate phase of `syncAllProperties`. -/
def enumerateProperties (parsed : Option Json) : Except ConfigFailure (List Json) :=
  match parsed with
  | none => Except.error ConfigFailure.jsonSyntaxError
  | some (Json.arr xs) => Except.ok xs
  | some (Json.str s) => Except.ok (s.toList.map (fun c => Json.str (String.singleton c)))
  | some _ => Except.error ConfigFailure.notIterable

/-- Whether the run reaches its first network request: with at least one
enumerated property, `syncSingleProperty` immediately calls
`fetchEntrataUnitTypes`, which issues the upstream POST. -/
def entrataFetchIssued (parsed : Option Json) : Bool :=
  match enumerateProperties parsed with
  | Except.ok (_ :: _) => true
  | _ => false

/- ------------------------------------------------------------------
Concrete records used in closed instances and counterexamples.
------------------------------------------------------------------ -/

/-- The fully empty source record. -/
def emptyUnitType : EntrataUnitType := {}

/-- A record whose name carries the "elite" keyword but whose price-per-bed
stays below the threshold. -/
def unitElite500 : EntrataUnitType :=
  { name := some "Elite Corner", minRent := some 500, bedrooms := some 1 }

/-- Price-per-bed exactly 900 (threshold). -/
def unit900 : EntrataUnitType := { minRent := some 900, bedrooms := some 1 }

/-- Price-per-bed exactly 899 (just below threshold). -/
def unit899 : EntrataUnitType := { minRent := some 899, bedrooms := some 1 }

/-- minRent 7, bedrooms 2: `7 / 2` rounds to 4 but floors to 3. -/
def unitRound72 : EntrataUnitType := { minRent := some 7, bedrooms := some 2 }

/-- minRent 1000 with a negative bedroom count: truthy but not positive. -/
def unitNegBeds : EntrataUnitType := { minRent := some 1000, bedrooms := some (-2) }

/-- The spec's `normalize({minRent:1000, bedrooms:2})` example. -/
def unit1000x2 : EntrataUnitType := { minRent := some 1000, bedrooms := some 2 }

/-- The spec's `normalize({minRent:1000, bedrooms:0})` example. -/
def unit1000x0 : EntrataUnitType := { minRent := some 1000, bedrooms := some 0 }

/- ------------------------------------------------------------------
Definitions modelled from the claims' words (for refinement comparison
against the source-derived `pricePerBedOf`).
------------------------------------------------------------------ -/

/-- Modelled from claim C4's words: `floor(minPrice / bedrooms)` when the
minimum price and the bedroom count are both present and `bedrooms > 0`,
else 0. -/
def pricePerBedClaimFloor (u : EntrataUnitType) : ℚ :=
  match minRentRawOf u, bedroomsRawOf u with
  | some m, some b => if 0 < b then ((⌊m / b⌋ : ℤ) : ℚ) else 0
  | _, _ => 0

/-- Modelled from claim C9's words: `round(minPrice / bedrooms)` when both
present and `bedrooms > 0`, else 0. -/
def pricePerBedClaimRound (u : EntrataUnitType) : ℚ :=
  match minRentRawOf u, bedroomsRawOf u with
  | some m, some b => if 0 < b then ((jsRound (m / b) : ℤ) : ℚ) else 0
  | _, _ => 0

/- ------------------------------------------------------------------
Helper lemmas: field lookups on produced items.  Each is definitional: the
field map is a literal list, so `List.lookup` reduces on the string keys.
------------------------------------------------------------------ -/

theorem fieldOf_slug (u : EntrataUnitType) (config : PropertyConfig) :
    fieldOf ⟨mkWebflowFieldData u config⟩ "slug" = some (Json.str (slugOf u)) := rfl

theorem fieldOf_bedrooms (u : EntrataUnitType) (config : PropertyConfig) :
    fieldOf ⟨mkWebflowFieldData u config⟩ "bedrooms" = some (Json.num (bedroomsOf u)) := rfl

theorem fieldOf_bathrooms (u : EntrataUnitType) (config : PropertyConfig) :
    fieldOf ⟨mkWebflowFieldData u config⟩ "bathrooms" = some (Json.num (bathroomsOf u)) := rfl

theorem fieldOf_square_footage (u : EntrataUnitType) (config : PropertyConfig) :
    fieldOf ⟨mkWebflowFieldData u config⟩ "square-footage" = some (Json.num (sqftOf u)) := rfl

theorem fieldOf_starting_price (u : EntrataUnitType) (config : PropertyConfig) :
    fieldOf ⟨mkWebflowFieldData u config⟩ "starting-price" = some (Json.num (minRentOf u)) := rfl

theorem fieldOf_available_units (u : EntrataUnitType) (config : PropertyConfig) :
    fieldOf ⟨mkWebflowFieldData u config⟩ "available-units"
      = some (Json.num (availableUnitsOf u)) := rfl

theorem fieldOf_tier_signature (u : EntrataUnitType) (config : PropertyConfig) :
    fieldOf ⟨mkWebflowFieldData u config⟩ "tier-signature"
      = some (Json.bool (!isEliteOf u)) := rfl

theorem fieldOf_tier_elite (u : EntrataUnitType) (config : PropertyConfig) :
    fieldOf ⟨mkWebflowFieldData u config⟩ "tier-elite"
      = some (Json.bool (isEliteOf u)) := rfl

theorem fieldOf_price_per_bed (u : EntrataUnitType) (config : PropertyConfig) :
    fieldOf ⟨mkWebflowFieldData u config⟩ "price-per-bed"
      = some (Json.num (pricePerBedOf u)) := rfl

theorem fieldOf_property_id (u : EntrataUnitType) (config : PropertyConfig) :
    fieldOf ⟨mkWebflowFieldData u config⟩ "property-id"
      = some (Json.str config.entrataPropertyId) := rfl

theorem fieldOf_floor_plan_image (u : EntrataUnitType) (config : PropertyConfig) :
    fieldOf ⟨mkWebflowFieldData u config⟩ "floor-plan-image"
      = some (Json.str (imageUrlOf u)) := rfl

theorem fieldOf_last_synced_absent (u : EntrataUnitType) (config : PropertyConfig) :
    fieldOf ⟨mkWebflowFieldData u config⟩ "last-synced" = none := rfl

theorem fieldOfRev1_last_synced (fp : EntrataFloorplan) (config : PropertyConfig)
    (now : String) :
    fieldOf ⟨mkFloorplanFieldData fp config now⟩ "last-synced"
      = some (Json.str now) := rfl

theorem fieldOfRev1_thumbnail (fp : EntrataFloorplan) (config : PropertyConfig)
    (now : String) :
    fieldOf ⟨mkFloorplanFieldData fp config now⟩ "thumbnail-image"
      = some (Json.str (jsOrStr fp.imageUrl "")) := rfl

theorem fieldOfRev1_property_id (fp : EntrataFloorplan) (config : PropertyConfig)
    (now : String) :
    fieldOf ⟨mkFloorplanFieldData fp config now⟩ "property-id"
      = some (Json.str config.entrataPropertyId) := rfl

/- Concrete price-per-bed computations (the division makes these `norm_num`
facts rather than kernel reductions). -/

theorem pricePerBed_unitElite500 : pricePerBedOf unitElite500 = 500 := by
  norm_num [pricePerBedOf, minRentOf, minRentRawOf, bedroomsOf, bedroomsRawOf,
    firstPresent, jsOrNum, jsRound, unitElite500]

theorem pricePerBed_unit900 : pricePerBedOf unit900 = 900 := by
  norm_num [pricePerBedOf, minRentOf, minRentRawOf, bedroomsOf, bedroomsRawOf,
    firstPresent, jsOrNum, jsRound, unit900]

theorem pricePerBed_unit899 : pricePerBedOf unit899 = 899 := by
  norm_num [pricePerBedOf, minRentOf, minRentRawOf, bedroomsOf, bedroomsRawOf,
    firstPresent, jsOrNum, jsRound, unit899]

theorem pricePerBed_unitRound72 : pricePerBedOf unitRound72 = 4 := by
  norm_num [pricePerBedOf, minRentOf, minRentRawOf, bedroomsOf, bedroomsRawOf,
    firstPresent, jsOrNum, jsRound, unitRound72]

theorem pricePerBed_unitNegBeds : pricePerBedOf unitNegBeds = -500 := by
  norm_num [pricePerBedOf, minRentOf, minRentRawOf, bedroomsOf, bedroomsRawOf,
    firstPresent, jsOrNum, jsRound, unitNegBeds]

theorem pricePerBed_unit1000x2 : pricePerBedOf unit1000x2 = 500 := by
  norm_num [pricePerBedOf, minRentOf, minRentRawOf, bedroomsOf, bedroomsRawOf,
    firstPresent, jsOrNum, jsRound, unit1000x2]

theorem pricePerBed_unit1000x0 : pricePerBedOf unit1000x0 = 0 := by
  norm_num [pricePerBedOf, minRentOf, minRentRawOf, bedroomsOf, bedroomsRawOf,
    firstPresent, jsOrNum, unit1000x0]

/- ------------------------------------------------------------------
Claim theorems: record normalizer (claims C3, C4, C7, C8, C9, C10).
------------------------------------------------------------------ -/

/-- C7: the normalizer is total — it is a plain Lean function over arbitrary
records and raises no error — and for every input record the produced item
defines each numeric field (bedrooms, bathrooms, square footage, starting
price, price-per-bed, available units) and a non-empty slug; on the fully
empty record every one of those numeric fields is 0. -/
theorem c7_normalizer_total_defaults (u : EntrataUnitType) (config : PropertyConfig) :
    fieldOf ⟨mkWebflowFieldData u config⟩ "bedrooms" = some (Json.num (bedroomsOf u))
    ∧ fieldOf ⟨mkWebflowFieldData u config⟩ "bathrooms" = some (Json.num (bathroomsOf u))
    ∧ fieldOf ⟨mkWebflowFieldData u config⟩ "square-footage" = some (Json.num (sqftOf u))
    ∧ fieldOf ⟨mkWebflowFieldData u config⟩ "starting-price" = some (Json.num (minRentOf u))
    ∧ fieldOf ⟨mkWebflowFieldData u config⟩ "price-per-bed" = some (Json.num (pricePerBedOf u))
    ∧ fieldOf ⟨mkWebflowFieldData u config⟩ "available-units"
        = some (Json.num (availableUnitsOf u))
    ∧ (∃ s : String, fieldOf ⟨mkWebflowFieldData u config⟩ "slug" = some (Json.str s) ∧ s ≠ "")
    ∧ bedroomsOf emptyUnitType = 0 ∧ bathroomsOf emptyUnitType = 0
    ∧ sqftOf emptyUnitType = 0 ∧ minRentOf emptyUnitType = 0
    ∧ pricePerBedOf emptyUnitType = 0 ∧ availableUnitsOf emptyUnitType = 0
    ∧ slugOf emptyUnitType = "0bed-unknown" := by
  refine ⟨fieldOf_bedrooms u config, fieldOf_bathrooms u config,
    fieldOf_square_footage u config, fieldOf_starting_price u config,
    fieldOf_price_per_bed u config, fieldOf_available_units u config,
    ⟨slugOf u, fieldOf_slug u config, ?_⟩, rfl, rfl, rfl, rfl, rfl, rfl, rfl⟩
  intro h
  have hlen := congrArg String.length h
  have hbed : ("bed-" : String).length = 4 := rfl
  have hnil : ("" : String).length = 0 := rfl
  simp only [slugOf, String.length_append, hbed, hnil] at hlen
  omega

/-- C10: for every item produced by the src/src/index.ts normalizer, the
tier-signature flag is the boolean negation of the tier-elite flag, so exactly
one of the two is true — for every input record, including ones whose
price-per-bed is 0. -/
theorem c10_tier_flags_exclusive (unitTypes : List EntrataUnitType)
    (config : PropertyConfig) (item : WebflowItem)
    (hmem : item ∈ transformToWebflowItems unitTypes config) :
    ∃ e : Bool,
      fieldOf item "tier-elite" = some (Json.bool e)
      ∧ fieldOf item "tier-signature" = some (Json.bool (!e))
      ∧ (!e) ≠ e := by
  obtain ⟨u, _, rfl⟩ := List.mem_map.mp hmem
  exact ⟨isEliteOf u, fieldOf_tier_elite u config, fieldOf_tier_signature u config,
    Bool.not_ne_self (isEliteOf u)⟩

/-- Witness for C10 at the empty record (whose price-per-bed is 0). -/
theorem c10_tier_flags_exclusive_witness :
    ∃ e : Bool,
      fieldOf ⟨mkWebflowFieldData emptyUnitType sampleConfig⟩ "tier-elite"
        = some (Json.bool e)
      ∧ fieldOf ⟨mkWebflowFieldData emptyUnitType sampleConfig⟩ "tier-signature"
        = some (Json.bool (!e))
      ∧ (!e) ≠ e :=
  c10_tier_flags_exclusive [emptyUnitType] sampleConfig
    ⟨mkWebflowFieldData emptyUnitType sampleConfig⟩
    (by simp [transformToWebflowItems])

/-- C3 counterexample: the claim says an explicit "elite" name keyword sets
the elite tier regardless of price, but on the record named "Elite Corner"
with price-per-bed 500 the src/src/index.ts normalizer emits
tier-elite = false and tier-signature = true: the name is never consulted. -/
theorem c3_counterexample :
    jsIncludes (jsToLower (nameOf unitElite500)) "elite" = true
    ∧ fieldOf ⟨mkWebflowFieldData unitElite500 sampleConfig⟩ "tier-elite"
        = some (Json.bool false)
    ∧ fieldOf ⟨mkWebflowFieldData unitElite500 sampleConfig⟩ "tier-signature"
        = some (Json.bool true) := by
  have hElite : isEliteOf unitElite500 = false := by
    simp only [isEliteOf, decide_eq_false_iff_not, not_le, pricePerBed_unitElite500]
    norm_num
  refine ⟨rfl, ?_, ?_⟩
  · rw [fieldOf_tier_elite, hElite]
  · rw [fieldOf_tier_signature, hElite]
    rfl

/-- C3 (amended): in src/src/index.ts the tier flags are derived solely from
the price-per-bed threshold — at least 900 sets tier-elite (e.g. exactly
900), otherwise tier-signature is set (e.g. exactly 899); name keywords are
not consulted by this revision. -/
theorem c3_tier_threshold (u : EntrataUnitType) (config : PropertyConfig) :
    fieldOf ⟨mkWebflowFieldData u config⟩ "tier-elite"
        = some (Json.bool (decide (900 ≤ pricePerBedOf u)))
    ∧ fieldOf ⟨mkWebflowFieldData u config⟩ "tier-signature"
        = some (Json.bool (!decide (900 ≤ pricePerBedOf u)))
    ∧ fieldOf ⟨mkWebflowFieldData unit900 sampleConfig⟩ "tier-elite"
        = some (Json.bool true)
    ∧ fieldOf ⟨mkWebflowFieldData unit900 sampleConfig⟩ "tier-signature"
        = some (Json.bool false)
    ∧ fieldOf ⟨mkWebflowFieldData unit899 sampleConfig⟩ "tier-elite"
        = some (Json.bool false)
    ∧ fieldOf ⟨mkWebflowFieldData unit899 sampleConfig⟩ "tier-signature"
        = some (Json.bool true) := by
  have h900 : isEliteOf unit900 = true := by
    simp only [isEliteOf, decide_eq_true_eq, pricePerBed_unit900]
    norm_num
  have h899 : isEliteOf unit899 = false := by
    simp only [isEliteOf, decide_eq_false_iff_not, not_le, pricePerBed_unit899]
    norm_num
  refine ⟨fieldOf_tier_elite u config, fieldOf_tier_signature u config, ?_, ?_, ?_, ?_⟩
  · rw [fieldOf_tier_elite, h900]
  · rw [fieldOf_tier_signature, h900]
    rfl
  · rw [fieldOf_tier_elite, h899]
  · rw [fieldOf_tier_signature, h899]
    rfl

/-- C4 counterexample: for the record with minRent 7 and bedrooms 2 the
normalizer stores Math.round(7/2) = 4, while the claim's
floor(minPrice / bedrooms) is 3. -/
theorem c4_counterexample :
    fieldOf ⟨mkWebflowFieldData unitRound72 sampleConfig⟩ "price-per-bed"
        = some (Json.num 4)
    ∧ pricePerBedClaimFloor unitRound72 = 3
    ∧ pricePerBedOf unitRound72 ≠ pricePerBedClaimFloor unitRound72 := by
  have hfloor : pricePerBedClaimFloor unitRound72 = 3 := by
    norm_num [pricePerBedClaimFloor, minRentRawOf, bedroomsRawOf, firstPresent,
      unitRound72]
  refine ⟨?_, hfloor, ?_⟩
  · rw [fieldOf_price_per_bed, pricePerBed_unitRound72]
  · rw [pricePerBed_unitRound72, hfloor]
    norm_num

/-- C4 (amended): the derived price-per-bedroom field equals
Math.round(minPrice / bedrooms) — JS rounding, half toward positive infinity —
whenever the extracted minimum price and bedroom count are both truthy
(present and nonzero), and 0 in every other case (the code tests truthiness,
not positivity, of the bedroom count). -/
theorem c4_price_per_bed_round (u : EntrataUnitType) (config : PropertyConfig) :
    fieldOf ⟨mkWebflowFieldData u config⟩ "price-per-bed"
      = some (Json.num (if minRentOf u = 0 ∨ bedroomsOf u = 0 then 0
          else ((jsRound (minRentOf u / bedroomsOf u) : ℤ) : ℚ))) := by
  rw [fieldOf_price_per_bed]
  by_cases h1 : minRentOf u = 0 <;> by_cases h2 : bedroomsOf u = 0 <;>
    simp [pricePerBedOf, h1, h2]

/-- C9 counterexample: on the record {minRent:1000, bedrooms:-2} the claim's
"round when bedrooms > 0, else 0" prescribes 0, but the normalizer (which only
tests truthiness) stores Math.round(1000 / -2) = -500. -/
theorem c9_counterexample :
    fieldOf ⟨mkWebflowFieldData unitNegBeds sampleConfig⟩ "price-per-bed"
        = some (Json.num (-500))
    ∧ pricePerBedClaimRound unitNegBeds = 0
    ∧ pricePerBedOf unitNegBeds ≠ pricePerBedClaimRound unitNegBeds := by
  have hclaim : pricePerBedClaimRound unitNegBeds = 0 := by
    norm_num [pricePerBedClaimRound, minRentRawOf, bedroomsRawOf, firstPresent,
      unitNegBeds]
  refine ⟨?_, hclaim, ?_⟩
  · rw [fieldOf_price_per_bed, pricePerBed_unitNegBeds]
  · rw [pricePerBed_unitNegBeds, hclaim]
    norm_num

/-- C9 (amended): the normalizer derives pricePerBed = round(minPrice /
bedrooms) when the extracted minimum price and bedroom count are both truthy
(present and nonzero), else 0; in particular {minRent:1000, bedrooms:2} yields
500 and {minRent:1000, bedrooms:0} yields 0. -/
theorem c9_price_per_bed_examples (u : EntrataUnitType) (config : PropertyConfig) :
    (minRentOf u ≠ 0 → bedroomsOf u ≠ 0 →
      fieldOf ⟨mkWebflowFieldData u config⟩ "price-per-bed"
        = some (Json.num ((jsRound (minRentOf u / bedroomsOf u) : ℤ) : ℚ)))
    ∧ (minRentOf u = 0 ∨ bedroomsOf u = 0 →
      fieldOf ⟨mkWebflowFieldData u config⟩ "price-per-bed" = some (Json.num 0))
    ∧ fieldOf ⟨mkWebflowFieldData unit1000x2 sampleConfig⟩ "price-per-bed"
        = some (Json.num 500)
    ∧ fieldOf ⟨mkWebflowFieldData unit1000x0 sampleConfig⟩ "price-per-bed"
        = some (Json.num 0) := by
  refine ⟨?_, ?_, ?_, ?_⟩
  · intro h1 h2
    rw [fieldOf_price_per_bed]
    simp [pricePerBedOf, h1, h2]
  · intro h
    rw [fieldOf_price_per_bed]
    rcases h with h | h <;> simp [pricePerBedOf, h]
  · rw [fieldOf_price_per_bed, pricePerBed_unit1000x2]
  · rw [fieldOf_price_per_bed, pricePerBed_unit1000x0]

/-- Witness for C9 (amended) at the record {minRent:1000, bedrooms:2}. -/
theorem c9_price_per_bed_examples_witness :
    fieldOf ⟨mkWebflowFieldData unit1000x2 sampleConfig⟩ "price-per-bed"
      = some (Json.num ((jsRound (minRentOf unit1000x2 / bedroomsOf unit1000x2) : ℤ) : ℚ)) :=
  (c9_price_per_bed_examples unit1000x2 sampleConfig).1 (by decide) (by decide)

/-- C8 counterexample: the item produced by the src/src/index.ts normalizer
(for the empty record) contains no "last-synced" field at all, so not every
produced item carries a last-synced timestamp. -/
theorem c8_counterexample :
    (transformToWebflowItems [emptyUnitType] sampleConfig).map
        (fun item => fieldOf item "last-synced") = [none] := rfl

/-- C8 (amended): every src/src/index.ts item carries the image URL
("floor-plan-image") and the source property reference ("property-id") but no
last-synced timestamp; only the part_001 first-revision normalizer adds a
"last-synced" field, equal to the transform-time wall-clock ISO string
(modelled by the `now` parameter), alongside its "thumbnail-image" and
"property-id" fields. -/
theorem c8_item_fields (u : EntrataUnitType) (fp : EntrataFloorplan)
    (config : PropertyConfig) (now : String) :
    fieldOf ⟨mkWebflowFieldData u config⟩ "floor-plan-image"
        = some (Json.str (imageUrlOf u))
    ∧ fieldOf ⟨mkWebflowFieldData u config⟩ "property-id"
        = some (Json.str config.entrataPropertyId)
    ∧ fieldOf ⟨mkWebflowFieldData u config⟩ "last-synced" = none
    ∧ fieldOf ⟨mkFloorplanFieldData fp config now⟩ "last-synced"
        = some (Json.str now)
    ∧ fieldOf ⟨mkFloorplanFieldData fp config now⟩ "thumbnail-image"
        = some (Json.str (jsOrStr fp.imageUrl ""))
    ∧ fieldOf ⟨mkFloorplanFieldData fp config now⟩ "property-id"
        = some (Json.str config.entrataPropertyId) :=
  ⟨fieldOf_floor_plan_image u config, fieldOf_property_id u config,
    fieldOf_last_synced_absent u config, fieldOfRev1_last_synced fp config now,
    fieldOfRev1_thumbnail fp config now, fieldOfRev1_property_id fp config now⟩

/- ------------------------------------------------------------------
Claim theorems: source fetcher (claim C1).
------------------------------------------------------------------ -/

/-- C1 counterexample: on the payload `{response:{result:{x:5}}}` — a single
non-array object result with no array anywhere — the claim prescribes the
one-element sequence `[{x:5}]`, but the part_001 getUnitTypes fetcher returns
the empty sequence (its one-element-wrapping branch is unreachable, since the
probe loop and the property scan only ever store arrays). -/
theorem c1_counterexample :
    fetchEntrataUnitTypesExtract (wrapResult (Json.obj [("x", Json.num 5)])) = []
    ∧ ([] : List Json) ≠ [Json.obj [("x", Json.num 5)]] :=
  ⟨rfl, by simp⟩

/-- C1 (amended): for every HTTP-success response body, the part_001
getUnitTypes fetcher returns a sequence: `{response:{result:{FloorPlans:[...]}}}`
yields that array, `{response:{result:{unitTypes:{unitType:[...]}}}}` yields
the nested array, and `{response:{result:{}}}` yields the empty sequence; in
general it probes the prioritized candidate sub-paths for an array (taking
priority over the scan), then scans the result object's immediate properties
for the first non-empty array-valued property, and otherwise returns the
empty sequence — a single non-array result is never wrapped into a
one-element sequence. -/
theorem c1_shape_probing :
    (∀ xs : List Json,
      fetchEntrataUnitTypesExtract (wrapResult (Json.obj [("FloorPlans", Json.arr xs)])) = xs)
    ∧ (∀ ys : List Json,
      fetchEntrataUnitTypesExtract (wrapResult
          (Json.obj [("unitTypes", Json.obj [("unitType", Json.arr ys)])])) = ys)
    ∧ fetchEntrataUnitTypesExtract (wrapResult (Json.obj [])) = []
    ∧ (∀ (w : Json) (ws ys : List Json),
      fetchEntrataUnitTypesExtract (wrapResult (Json.obj
          [("Amenities", Json.arr (w :: ws)),
           ("unitTypes", Json.obj [("unitType", Json.arr ys)])])) = ys)
    ∧ (∀ (y : Json) (ys zs : List Json),
      fetchEntrataUnitTypesExtract (wrapResult (Json.obj
          [("first", Json.arr []), ("second", Json.arr (y :: ys)),
           ("third", Json.arr zs)])) = y :: ys)
    ∧ (∀ q : ℚ,
      fetchEntrataUnitTypesExtract (wrapResult (Json.obj [("propertyId", Json.num q)])) = [])
    ∧ (∀ s : String, fetchEntrataUnitTypesExtract (wrapResult (Json.str s)) = []) := by
  refine ⟨?_, fun ys => rfl, rfl, fun w ws ys => rfl, fun y ys zs => rfl,
    fun q => rfl, fun s => rfl⟩
  intro xs
  cases xs with
  | nil => rfl
  | cons a t => rfl

/- ------------------------------------------------------------------
Claim theorems: property enumerator (claim C5).
------------------------------------------------------------------ -/

/-- C5 counterexample: the configuration value `"ab"` is valid JSON but not an
array, yet the run does not fail before network calls: a JS string is
iterable, so the `for...of` loop enumerates its characters and the first
per-property sync immediately issues the upstream fetch. -/
theorem c5_counterexample :
    enumerateProperties (some (Json.str "ab"))
      = Except.ok [Json.str "a", Json.str "b"]
    ∧ entrataFetchIssued (some (Json.str "ab")) = true :=
  ⟨rfl, rfl⟩

/-- C5 (amended): the run fails before any network call when the configuration
string is not valid JSON (`JSON.parse` throws a SyntaxError) or parses to a
non-iterable value — a plain object, number, boolean or null makes the
`for...of` head throw a TypeError; there is no dedicated ConfigError and no
array check, and a valid-JSON string value is iterated character-wise, letting
the run proceed to network calls. -/
theorem c5_config_failure (p : Option Json) :
    (p = none →
      enumerateProperties p = Except.error ConfigFailure.jsonSyntaxError
      ∧ entrataFetchIssued p = false)
    ∧ (∀ v : Json, p = some v → jsIterable v = false →
      enumerateProperties p = Except.error ConfigFailure.notIterable
      ∧ entrataFetchIssued p = false)
    ∧ (∀ e : ConfigFailure, enumerateProperties p = Except.error e →
      entrataFetchIssued p = false) := by
  refine ⟨?_, ?_, ?_⟩
  · rintro rfl
    exact ⟨rfl, rfl⟩
  · rintro v rfl hv
    cases v <;> simp_all [jsIterable, enumerateProperties, entrataFetchIssued]
  · intro e he
    cases p with
    | none => rfl
    | some v => cases v <;> simp_all [enumerateProperties, entrataFetchIssued]

/-- Witness for C5 (amended): a valid-JSON object configuration fails at the
loop head with no network call issued. -/
theorem c5_config_failure_witness :
    enumerateProperties (some (Json.obj [("entrataPropertyId", Json.str "P1")]))
      = Except.error ConfigFailure.notIterable
    ∧ entrataFetchIssued (some (Json.obj [("entrataPropertyId", Json.str "P1")])) = false :=
  (c5_config_failure (some (Json.obj [("entrataPropertyId", Json.str "P1")]))).2.1
    (Json.obj [("entrataPropertyId", Json.str "P1")]) rfl rfl

/- ------------------------------------------------------------------
Batch publisher lemmas.
------------------------------------------------------------------ -/


theorem chunks100_eq {α : Type} (l : List α) (h : l ≠ []) :
    chunks100 l = l.take 100 :: chunks100 (l.drop 100) := by
  cases l with
  | nil => exact absurd rfl h
  | cons x xs => simp [chunks100]

theorem chunks100_nil {α : Type} : chunks100 ([] : List α) = [] := by
  simp [chunks100]

theorem chunks100_ne_nil {α : Type} (l : List α) (h : l ≠ []) :
    chunks100 l ≠ [] := by
  rw [chunks100_eq l h]
  simp

theorem chunks100_flatten {α : Type} (l : List α) : (chunks100 l).flatten = l := by
  by_cases hne : l = []
  · subst hne
    simp [chunks100_nil]
  · rw [chunks100_eq _ hne]
    have ih := chunks100_flatten (l.drop 100)
    simp only [List.flatten_cons, ih, List.take_append_drop]
termination_by l.length
decreasing_by
  rw [List.length_drop]
  have : 0 < l.length := List.length_pos.mpr hne
  omega

theorem chunks100_mem {α : Type} (l c : List α) (hc : c ∈ chunks100 l) :
    c.length ≤ 100 ∧ c ≠ [] := by
  by_cases hne : l = []
  · subst hne
    rw [chunks100_nil] at hc
    simp at hc
  · rw [chunks100_eq _ hne] at hc
    rcases List.mem_cons.mp hc with hc | hc
    · subst hc
      refine ⟨by simp [List.length_take], ?_⟩
      intro h
      have hlen0 := congrArg List.length h
      rw [List.length_take] at hlen0
      have hpos : 0 < l.length := List.length_pos.mpr hne
      simp only [List.length_nil] at hlen0
      omega
    · exact chunks100_mem (l.drop 100) c hc
termination_by l.length
decreasing_by
  rw [List.length_drop]
  have : 0 < l.length := List.length_pos.mpr hne
  omega

theorem chunks100_length {α : Type} (l : List α) :
    (chunks100 l).length = (l.length + 99) / 100 := by
  by_cases hne : l = []
  · subst hne
    rw [chunks100_nil]
    simp
  · rw [chunks100_eq _ hne]
    have ih := chunks100_length (l.drop 100)
    have hpos : 0 < l.length := List.length_pos.mpr hne
    simp only [List.length_cons, ih, List.length_drop]
    rcases le_or_lt l.length 100 with h | h
    · have h1 : l.length - 100 = 0 := by omega
      have h2 : (l.length + 99) / 100 = 1 :=
        Nat.div_eq_of_lt_le (by omega) (by omega)
      have h3 : (99 : ℕ) / 100 = 0 := Nat.div_eq_of_lt (by omega)
      rw [h1, h2, h3]
    · have h3 : l.length + 99 = (l.length - 100 + 99) + 100 := by omega
      rw [h3, Nat.add_div_right _ (by norm_num)]
termination_by l.length
decreasing_by
  rw [List.length_drop]
  have : 0 < l.length := List.length_pos.mpr hne
  omega

/-- The three chunk sizes of a 250-item list. -/
theorem chunks100_sizes_250 {α : Type} (l : List α) (hlen : l.length = 250) :
    (chunks100 l).map List.length = [100, 100, 50] := by
  have h1 : l ≠ [] := by
    intro h
    rw [h] at hlen
    simp at hlen
  have h2 : l.drop 100 ≠ [] := by
    intro h
    have := congrArg List.length h
    rw [List.length_drop] at this
    simp at this
    omega
  have h3 : (l.drop 100).drop 100 ≠ [] := by
    intro h
    have := congrArg List.length h
    rw [List.length_drop, List.length_drop] at this
    simp at this
    omega
  have hd3 : ((l.drop 100).drop 100).drop 100 = [] := by
    apply List.eq_nil_of_length_eq_zero
    rw [List.length_drop, List.length_drop, List.length_drop]
    omega
  rw [chunks100_eq _ h1, chunks100_eq _ h2, chunks100_eq _ h3, hd3, chunks100_nil]
  simp only [List.map_cons, List.map_nil, List.length_take, List.length_drop, hlen]
  norm_num

theorem postedBatches_nil {α : Type} :
    postedBatches ([] : List (PubEvent α)) = [] := rfl

theorem postedBatches_post {α : Type} (b : List α) (evs : List (PubEvent α)) :
    postedBatches (PubEvent.post b :: evs) = b :: postedBatches evs := rfl

theorem postedBatches_delay {α : Type} (ms : ℕ) (evs : List (PubEvent α)) :
    postedBatches (PubEvent.delay ms :: evs) = postedBatches evs := rfl

theorem delayCount_nil {α : Type} :
    delayCount ([] : List (PubEvent α)) = 0 := rfl

theorem delayCount_post {α : Type} (b : List α) (evs : List (PubEvent α)) :
    delayCount (PubEvent.post b :: evs) = delayCount evs := by
  simp [delayCount, List.countP_cons]

theorem delayCount_delay {α : Type} (ms : ℕ) (evs : List (PubEvent α)) :
    delayCount (PubEvent.delay ms :: evs) = delayCount evs + 1 := by
  simp [delayCount, List.countP_cons]

/-- Posted batches and pause count of the fully interleaved event list. -/
theorem intersperse_events {α : Type} (cs : List (List α)) :
    postedBatches (List.intersperse (PubEvent.delay 1000) (cs.map PubEvent.post)) = cs
    ∧ delayCount (List.intersperse (PubEvent.delay 1000) (cs.map PubEvent.post))
        = cs.length - 1 := by
  induction cs with
  | nil => exact ⟨rfl, rfl⟩
  | cons c cs ih =>
      cases cs with
      | nil => exact ⟨rfl, rfl⟩
      | cons c2 cs2 =>
          simp only [List.map_cons] at ih ⊢
          rw [List.intersperse_cons_cons]
          constructor
          · rw [postedBatches_post, postedBatches_delay, ih.1]
          · rw [delayCount_post, delayCount_delay, ih.2]
            simp only [List.length_cons]
            omega

theorem syncRunAux_nil {α : Type} (resp : ℕ → HttpResp) (k : ℕ) :
    syncRunAux resp k ([] : List α) = ([], PubOutcome.ok) := by
  simp [syncRunAux]

/-- One loop iteration, OK response, nothing left after this chunk: post the
whole remainder and finish. -/
theorem syncRunAux_ok_last {α : Type} (resp : ℕ → HttpResp) (k : ℕ) (l : List α)
    (hne : l ≠ []) (hok : respOk (resp k) = true) (hshort : ¬ 100 < l.length) :
    syncRunAux resp k l = ([PubEvent.post l], PubOutcome.ok) := by
  cases l with
  | nil => exact absurd rfl hne
  | cons x xs =>
      have hd : (x :: xs).drop 100 = [] := by
        apply List.eq_nil_of_length_eq_zero
        rw [List.length_drop]
        simp only [List.length_cons] at hshort ⊢
        omega
      have htake : (x :: xs).take 100 = x :: xs :=
        List.take_of_length_le (by simp only [List.length_cons] at hshort ⊢; omega)
      rw [syncRunAux, hok]
      simp only [if_true, hd, if_neg hshort, htake, syncRunAux_nil]

/-- One loop iteration, OK response, more items remain: post the first chunk,
pause, and continue on the rest. -/
theorem syncRunAux_ok_more {α : Type} (resp : ℕ → HttpResp) (k : ℕ) (l : List α)
    (hok : respOk (resp k) = true) (hlong : 100 < l.length) :
    syncRunAux resp k l
      = (PubEvent.post (l.take 100) :: PubEvent.delay 1000 ::
            (syncRunAux resp (k + 1) (l.drop 100)).1,
         (syncRunAux resp (k + 1) (l.drop 100)).2) := by
  cases l with
  | nil => simp at hlong
  | cons x xs =>
      rw [syncRunAux, hok]
      simp only [if_true, if_pos hlong]

/-- One loop iteration, failing response: the chunk was posted, then the loop
throws with the response's status and body. -/
theorem syncRunAux_err {α : Type} (resp : ℕ → HttpResp) (k : ℕ) (l : List α)
    (hne : l ≠ []) (hbad : respOk (resp k) = false) :
    syncRunAux resp k l
      = ([PubEvent.post (l.take 100)],
         PubOutcome.destinationError (resp k).status (resp k).body) := by
  cases l with
  | nil => exact absurd rfl hne
  | cons x xs =>
      rw [syncRunAux, hbad]
      simp

/-- When every destination response is OK, the publisher run posts exactly the
100-chunks of the items in order, interleaved with single 1000 ms pauses, and
ends cleanly. -/
theorem syncRunAux_allOk {α : Type} (resp : ℕ → HttpResp)
    (hok : ∀ j, respOk (resp j) = true) (l : List α) (k : ℕ) (hne : l ≠ []) :
    syncRunAux resp k l
      = (List.intersperse (PubEvent.delay 1000) ((chunks100 l).map PubEvent.post),
         PubOutcome.ok) := by
  by_cases hlong : 100 < l.length
  · have hd : l.drop 100 ≠ [] := by
      apply List.ne_nil_of_length_pos
      rw [List.length_drop]
      omega
    have ih := syncRunAux_allOk resp hok (l.drop 100) (k + 1) hd
    rw [syncRunAux_ok_more resp k l (hok k) hlong, ih]
    rw [chunks100_eq l hne]
    obtain ⟨c, cs, hcs⟩ := List.exists_cons_of_ne_nil (chunks100_ne_nil _ hd)
    rw [hcs]
    simp only [List.map_cons, List.intersperse_cons_cons]
  · rw [syncRunAux_ok_last resp k l hne (hok k) hlong]
    rw [chunks100_eq l hne]
    have hd : l.drop 100 = [] := by
      apply List.eq_nil_of_length_eq_zero
      rw [List.length_drop]
      omega
    have htake : l.take 100 = l := List.take_of_length_le (by omega)
    rw [hd, chunks100_nil, htake]
    simp only [List.map_cons, List.map_nil, List.intersperse_singleton]
termination_by l.length
decreasing_by
  rw [List.length_drop]
  have : 0 < l.length := List.length_pos.mpr hne
  omega

/-- When the first `k` responses are OK and response `k` (0-based) is not, the
run ends in a destination error carrying that response's status and body,
having posted exactly the first `k + 1` chunks with `k` pauses in between. -/
theorem syncRunAux_fail {α : Type} (resp : ℕ → HttpResp) :
    ∀ (k : ℕ) (l : List α) (j0 : ℕ),
    (∀ j, j < k → respOk (resp (j0 + j)) = true) →
    respOk (resp (j0 + k)) = false →
    k < (chunks100 l).length →
    (syncRunAux resp j0 l).2
        = PubOutcome.destinationError (resp (j0 + k)).status (resp (j0 + k)).body
    ∧ postedBatches (syncRunAux resp j0 l).1 = (chunks100 l).take (k + 1)
    ∧ delayCount (syncRunAux resp j0 l).1 = k := by
  intro k
  induction k with
  | zero =>
      intro l j0 _ hfail hk
      have hne : l ≠ [] := by
        intro h
        rw [h, chunks100_nil] at hk
        simp at hk
      have hfail0 : respOk (resp j0) = false := by
        simpa using hfail
      rw [syncRunAux_err resp j0 l hne hfail0]
      refine ⟨by simp, ?_, by simp [delayCount_nil, delayCount_post]⟩
      rw [chunks100_eq l hne]
      simp [postedBatches_post, postedBatches_nil]
  | succ k ih =>
      intro l j0 hok hfail hk
      have hne : l ≠ [] := by
        intro h
        rw [h, chunks100_nil] at hk
        simp at hk
      have hck : 1 < (chunks100 l).length := by omega
      have hlong : 100 < l.length := by
        by_contra hle
        push_neg at hle
        have hd : l.drop 100 = [] := by
          apply List.eq_nil_of_length_eq_zero
          rw [List.length_drop]
          omega
        rw [chunks100_eq _ hne, hd, chunks100_nil] at hck
        simp at hck
      have hkd : k < (chunks100 (l.drop 100)).length := by
        rw [chunks100_eq _ hne] at hk
        simpa using hk
      have hok' : ∀ j, j < k → respOk (resp (j0 + 1 + j)) = true := by
        intro j hj
        have harith : j0 + 1 + j = j0 + (j + 1) := by omega
        rw [harith]
        exact hok (j + 1) (by omega)
      have hfail' : respOk (resp (j0 + 1 + k)) = false := by
        have harith : j0 + 1 + k = j0 + (k + 1) := by omega
        rw [harith]
        exact hfail
      have hrec := ih (l.drop 100) (j0 + 1) hok' hfail' hkd
      have harith : j0 + 1 + k = j0 + (k + 1) := by omega
      rw [harith] at hrec
      have hok0 : respOk (resp j0) = true := by
        simpa using hok 0 (by omega)
      rw [syncRunAux_ok_more resp j0 l hok0 hlong]
      refine ⟨hrec.1, ?_, ?_⟩
      · simp only [postedBatches_post, postedBatches_delay, hrec.2.1]
        rw [chunks100_eq l hne]
        simp [List.take_succ_cons]
      · simp only [delayCount_post, delayCount_delay, hrec.2.2]

/-- The first destination error among sequentially processed properties
surfaces as the run's outcome (the intermediate `catch` blocks log and
rethrow, and the `for` loop never reaches later properties). -/
theorem syncAllOutcome_surfaces (pre : List PubOutcome)
    (hpre : ∀ o ∈ pre, o = PubOutcome.ok) (s : ℕ) (b : String)
    (later : List PubOutcome) :
    syncAllOutcome (pre ++ PubOutcome.destinationError s b :: later)
      = PubOutcome.destinationError s b := by
  induction pre with
  | nil => rfl
  | cons o pre ih =>
      have ho : o = PubOutcome.ok := hpre o (by simp)
      subst ho
      rw [List.cons_append]
      show syncAllOutcome (pre ++ PubOutcome.destinationError s b :: later)
        = PubOutcome.destinationError s b
      exact ih (fun o hmem => hpre o (by simp [hmem]))

/- ------------------------------------------------------------------
Claim theorems: batch publisher (claims C2 and C6).
------------------------------------------------------------------ -/

/-- C2: for every non-empty item list (and all-successful responses), the
publisher partitions the list into consecutive chunks of at most 100 items in
input order, issues exactly one POST per chunk, and pauses a fixed 1 second
between consecutive chunks but not after the last (the event list is exactly
the chunk posts interleaved with single pauses); publishing 250 items issues
exactly 3 requests sized 100, 100, 50 with exactly 2 inter-batch delays. -/
theorem c2_batch_partitioning {α : Type} (resp : ℕ → HttpResp)
    (items : List α) (hok : ∀ j, respOk (resp j) = true) (hne : items ≠ []) :
    syncToWebflowRun resp items
      = (List.intersperse (PubEvent.delay 1000) ((chunks100 items).map PubEvent.post),
         PubOutcome.ok)
    ∧ (chunks100 items).flatten = items
    ∧ (∀ c ∈ chunks100 items, c.length ≤ 100 ∧ c ≠ [])
    ∧ postedBatches (syncToWebflowRun resp items).1 = chunks100 items
    ∧ delayCount (syncToWebflowRun resp items).1 = (chunks100 items).length - 1
    ∧ (items.length = 250 →
        (chunks100 items).map List.length = [100, 100, 50]
        ∧ (postedBatches (syncToWebflowRun resp items).1).map List.length
            = [100, 100, 50]
        ∧ delayCount (syncToWebflowRun resp items).1 = 2) := by
  have hrun : syncToWebflowRun resp items
      = (List.intersperse (PubEvent.delay 1000) ((chunks100 items).map PubEvent.post),
         PubOutcome.ok) :=
    syncRunAux_allOk resp hok items 0 hne
  have hev := intersperse_events (chunks100 items)
  refine ⟨hrun, chunks100_flatten items, fun c hc => chunks100_mem items c hc, ?_, ?_, ?_⟩
  · rw [hrun]
    exact hev.1
  · rw [hrun]
    exact hev.2
  · intro h250
    have hsizes := chunks100_sizes_250 items h250
    refine ⟨hsizes, ?_, ?_⟩
    · rw [hrun]
      rw [show (List.intersperse (PubEvent.delay 1000)
            ((chunks100 items).map PubEvent.post), PubOutcome.ok).1
          = List.intersperse (PubEvent.delay 1000) ((chunks100 items).map PubEvent.post)
          from rfl, hev.1, hsizes]
    · rw [hrun]
      have hlen : (chunks100 items).length = 3 := by
        rw [chunks100_length, h250]
      rw [show (List.intersperse (PubEvent.delay 1000)
            ((chunks100 items).map PubEvent.post), PubOutcome.ok).1
          = List.intersperse (PubEvent.delay 1000) ((chunks100 items).map PubEvent.post)
          from rfl, hev.2, hlen]

/-- The all-OK destination response oracle used in witnesses. -/
def respAllOk : ℕ → HttpResp := fun _ => ⟨200, "created"⟩

/-- Witness for C2 at 250 concrete items with all-successful responses. -/
theorem c2_batch_partitioning_witness :
    syncToWebflowRun respAllOk (List.replicate 250 (0 : ℕ))
      = (List.intersperse (PubEvent.delay 1000)
          ((chunks100 (List.replicate 250 (0 : ℕ))).map PubEvent.post),
         PubOutcome.ok)
    ∧ (chunks100 (List.replicate 250 (0 : ℕ))).flatten = List.replicate 250 (0 : ℕ)
    ∧ (∀ c ∈ chunks100 (List.replicate 250 (0 : ℕ)), c.length ≤ 100 ∧ c ≠ [])
    ∧ postedBatches (syncToWebflowRun respAllOk (List.replicate 250 (0 : ℕ))).1
        = chunks100 (List.replicate 250 (0 : ℕ))
    ∧ delayCount (syncToWebflowRun respAllOk (List.replicate 250 (0 : ℕ))).1
        = (chunks100 (List.replicate 250 (0 : ℕ))).length - 1
    ∧ ((List.replicate 250 (0 : ℕ)).length = 250 →
        (chunks100 (List.replicate 250 (0 : ℕ))).map List.length = [100, 100, 50]
        ∧ (postedBatches (syncToWebflowRun respAllOk (List.replicate 250 (0 : ℕ))).1).map
            List.length = [100, 100, 50]
        ∧ delayCount (syncToWebflowRun respAllOk (List.replicate 250 (0 : ℕ))).1 = 2) :=
  c2_batch_partitioning respAllOk (List.replicate 250 (0 : ℕ))
    (fun _ => by simp [respAllOk, respOk])
    (by intro h
        have hlen := congrArg List.length h
        rw [List.length_replicate] at hlen
        simp at hlen)

/-- C6: if the destination answers request `k` (0-based) with a non-success
status after successful earlier requests, the publisher raises a destination
error carrying that response's HTTP status and body text, only the first
`k + 1` chunks were posted (later chunks are never issued), and the error
propagates through the per-property and all-properties layers to abort the
run. -/
theorem c6_destination_error_aborts {α : Type} (resp : ℕ → HttpResp)
    (items : List α) (k : ℕ)
    (hok : ∀ j, j < k → respOk (resp j) = true)
    (hfail : respOk (resp k) = false)
    (hk : k < (chunks100 items).length)
    (pre later : List PubOutcome) (hpre : ∀ o ∈ pre, o = PubOutcome.ok) :
    (syncToWebflowRun resp items).2
        = PubOutcome.destinationError (resp k).status (resp k).body
    ∧ postedBatches (syncToWebflowRun resp items).1 = (chunks100 items).take (k + 1)
    ∧ delayCount (syncToWebflowRun resp items).1 = k
    ∧ syncAllOutcome (pre ++ (syncToWebflowRun resp items).2 :: later)
        = PubOutcome.destinationError (resp k).status (resp k).body := by
  have h := syncRunAux_fail resp k items 0
    (by intro j hj; simpa using hok j hj)
    (by simpa using hfail)
    hk
  have h2 : (syncToWebflowRun resp items).2
      = PubOutcome.destinationError (resp k).status (resp k).body := by
    have := h.1
    simpa [syncToWebflowRun] using this
  refine ⟨h2, ?_, ?_, ?_⟩
  · have := h.2.1
    simpa [syncToWebflowRun] using this
  · have := h.2.2
    simpa [syncToWebflowRun] using this
  · rw [h2]
    exact syncAllOutcome_surfaces pre hpre (resp k).status (resp k).body later

/-- A destination oracle whose second response (request index 1) fails. -/
def respFailSecond : ℕ → HttpResp :=
  fun j => if j = 1 then ⟨500, "server error"⟩ else ⟨200, "created"⟩

/-- Witness for C6: 250 items, failure on batch 2 of 3 — batch 3 is never
issued and the destination error surfaces through the whole run. -/
theorem c6_destination_error_aborts_witness :
    (syncToWebflowRun respFailSecond (List.replicate 250 (0 : ℕ))).2
        = PubOutcome.destinationError (respFailSecond 1).status (respFailSecond 1).body
    ∧ postedBatches (syncToWebflowRun respFailSecond (List.replicate 250 (0 : ℕ))).1
        = (chunks100 (List.replicate 250 (0 : ℕ))).take 2
    ∧ delayCount (syncToWebflowRun respFailSecond (List.replicate 250 (0 : ℕ))).1 = 1
    ∧ syncAllOutcome ([] ++ (syncToWebflowRun respFailSecond
          (List.replicate 250 (0 : ℕ))).2 :: [PubOutcome.ok])
        = PubOutcome.destinationError (respFailSecond 1).status (respFailSecond 1).body :=
  c6_destination_error_aborts respFailSecond (List.replicate 250 (0 : ℕ)) 1
    (by intro j hj
        have hj0 : j = 0 := by omega
        subst hj0
        simp [respFailSecond, respOk])
    (by simp [respFailSecond, respOk])
    (by rw [chunks100_length, List.length_replicate]
        norm_num)
    [] [PubOutcome.ok]
    (by simp)

end EntrataWebflowSync
